import Mathlib

/-!
# Verification of the wokwi-python-client transport core

A shallow embedding of the client's transport engine
(`src/wokwi_client/transport.py`), the event-queue adapter
(`src/wokwi_client/event_queue.py`) and the simulation-time pacer
(`src/wokwi_client/client.py`), together with proofs about the
request/response correlation machinery, listener dispatch, shutdown
behaviour and the pacer algorithm.

Modelling conventions:
* Listener callbacks are values of an abstract type `L` with decidable
  equality (Python compares listeners with `!=` when removing them).
* Python dicts are modelled as insertion-ordered association lists
  (a fresh key is appended at the end, which is Python's dict order).
* Wire request ids are the decimal strings `str(self._next_id)`.  Since
  the decimal encoding of naturals is injective, the futures table is
  keyed by the underlying naturals; an inbound response id is
  `Option Nat`: `some n` stands for the decimal string of `n`, `none`
  for any other wire id (a missing id becomes the string "None" in the
  source, which can never equal a decimal key).
* `asyncio.Future` is a single-assignment slot (`FutureState`).
* Frames are modelled after JSON decoding and the `type`-field check of
  `Transport._recv`; binary frames, undecodable text and frames without
  a `type` key are handled before the points the claims are about.
* Numbers crossing the wire as Python floats (`nanos`, the pacer's
  `seconds * 1e9`) are modelled as exact rationals; `int(x)` is
  truncation toward zero (`pyInt`).
-/

/-- Exceptions raised by the transport layer.  `wokwiError` is
`WokwiError`, `protocolError`/`serverError` its subclasses, and
`connectionClosed` stands for `websockets.ConnectionClosed`. -/
inductive TransportException where
  | wokwiError (msg : String)
  | protocolError (msg : String)
  | serverError (msg : String)
  | connectionClosed
  | runtimeError (msg : String)
  | keyError
deriving DecidableEq, Repr

/-- The fields of a response's `result` dict the transport consults
(`result.get("message", ...)`, `result["code"]`, `result["message"]`).
Both keys may be absent on the wire. -/
structure ResultDict where
  code : Option Int
  message : Option String
deriving DecidableEq, Repr

/-- A decoded inbound frame (after `json.loads` and the `type` check of
`Transport._recv`).  The response id is `some n` when the wire id is the
decimal string of `n` (the only form the client ever allocates), else
`none`. -/
inductive Frame where
  | hello (protocolVersion : Int) (appName : String) (appVersion : String)
  | response (id : Option Nat) (command : String) (result : Option ResultDict) (error : Bool)
  | event (event : String) (nanos : ℚ) (paused : Bool)
  | errorMsg (message : String)
deriving DecidableEq, Repr

/-- The response message stored into a pending request's future by
`future.set_result(resp_msg_resp)`. -/
structure RespData where
  id : Option Nat
  command : String
  result : Option ResultDict
  error : Bool
deriving DecidableEq, Repr

/-- An `asyncio.Future`: a single-assignment result slot. -/
inductive FutureState where
  | pending
  | result (resp : RespData)
  | exn (e : TransportException)
deriving DecidableEq, Repr

/-- `Future.done()`. -/
def FutureState.isDone : FutureState → Bool
  | .pending => false
  | _ => true

/-- The websocket connection object; `connOpen` is whether the socket is
still open (`await ws.close()` clears it). -/
structure Ws where
  connOpen : Bool
deriving DecidableEq, Repr

/-- Status of the background receive task (`self._recv_task`).
`noTask` is the `None` of a transport that never connected;
`cancelledTask` a task that finished by cancellation; `completed` a
task whose loop exited normally; `failed e` a task that re-raised `e`. -/
inductive RecvTaskState where
  | noTask
  | running
  | cancelledTask
  | completed
  | failed (e : TransportException)
deriving DecidableEq, Repr

/-- One read from the websocket: either a decoded frame or the
connection closing under the reader (`websockets.ConnectionClosed`). -/
inductive RecvInput where
  | frame (f : Frame)
  | wsClosed
deriving DecidableEq, Repr

/-- Result of one iteration of the receive loop: the loop keeps running
(having invoked the listed listeners), the task dies re-raising an
exception, or the loop ends normally. -/
inductive RecvOutcome (L : Type) where
  | looped (invoked : List L)
  | died (e : TransportException)
  | ended
deriving DecidableEq, Repr

/-- `PROTOCOL_VERSION` from `constants.py`. -/
def PROTOCOL_VERSION : Int := 1

/-- Lookup in an insertion-ordered association list (Python `d.get(k)`). -/
def getEntry {K : Type} [DecidableEq K] {β : Type} (k : K) : List (K × β) → Option β
  | [] => none
  | (a, b) :: t => if a = k then some b else getEntry k t

/-- Assignment `d[k] = v` to an existing key: replace the (unique) entry
in place.  On a list without the key this is the identity; the model
only uses it on present keys. -/
def setEntry {K : Type} [DecidableEq K] {β : Type} (k : K) (v : β) : List (K × β) → List (K × β)
  | [] => []
  | (a, b) :: t => if a = k then (k, v) :: t else (a, b) :: setEntry k v t

/-- `del d[k]` / `d.pop(k, None)`: drop the (first) entry with key `k`. -/
def eraseEntry {K : Type} [DecidableEq K] {β : Type} (k : K) : List (K × β) → List (K × β)
  | [] => []
  | (a, b) :: t => if a = k then t else (a, b) :: eraseEntry k t

/-- Apply a function to every value of an association list. -/
def mapVals {K : Type} {β : Type} (g : β → β) (l : List (K × β)) : List (K × β) :=
  l.map (fun p => (p.1, g p.2))

/-- The key list of an association list. -/
def keysOf {K : Type} {β : Type} (l : List (K × β)) : List K :=
  l.map Prod.fst

/-- `if not fut.done(): fut.set_exception(e)` for one future. -/
def failOne (e : TransportException) (f : FutureState) : FutureState :=
  if f.isDone then f else .exn e

/-- `for fut in futures: if not fut.done(): fut.set_exception(e)`. -/
def failUndone (e : TransportException) (l : List (Nat × FutureState)) :
    List (Nat × FutureState) :=
  mapVals (failOne e) l

/-- The mutable state of a `Transport` instance (`Transport.__init__`):
`_next_id`, `_ws`, `_event_listeners`, `_response_futures`,
`_recv_task` and `_closed`.  The token and url fields play no role in
the verified behaviour and are omitted. -/
structure Transport (L : Type) where
  next_id : Nat
  ws : Option Ws
  event_listeners : List (String × List L)
  response_futures : List (Nat × FutureState)
  recv_task : RecvTaskState
  closed : Bool
deriving DecidableEq, Repr

/-- A freshly constructed transport: `_next_id = 1`, no connection, no
listeners, no pending requests, no receive task. -/
def Transport.init (L : Type) : Transport L :=
  { next_id := 1, ws := none, event_listeners := [], response_futures := [],
    recv_task := .noTask, closed := false }

/-- `Transport.add_event_listener`: create the type's list if missing,
then append the listener (registration order = list order). -/
def Transport.add_event_listener {L : Type} [DecidableEq L]
    (st : Transport L) (event_type : String) (l : L) : Transport L :=
  match getEntry event_type st.event_listeners with
  | none => { st with event_listeners := st.event_listeners ++ [(event_type, [l])] }
  | some ls => { st with event_listeners := setEntry event_type (ls ++ [l]) st.event_listeners }

/-- `Transport.remove_event_listener`: if the type is present, rebuild
its list without every registration equal to the listener, and delete
the entry when the rebuilt list is empty.  A missing type is a no-op;
the function never raises. -/
def Transport.remove_event_listener {L : Type} [DecidableEq L]
    (st : Transport L) (event_type : String) (l : L) : Transport L :=
  match getEntry event_type st.event_listeners with
  | none => st
  | some ls =>
      let ls' := ls.filter (fun x => x ≠ l)
      if ls' = [] then
        { st with event_listeners := eraseEntry event_type st.event_listeners }
      else
        { st with event_listeners := setEntry event_type ls' st.event_listeners }

/-- `Transport._dispatch_event`: the listeners invoked for one inbound
event frame, in order (`self._event_listeners.get(event, [])`, iterated
front to back, each invocation awaited before the next). -/
def Transport.dispatch_event {L : Type} [DecidableEq L]
    (st : Transport L) (event : String) : List L :=
  (getEntry event st.event_listeners).getD []

/-- The classification part of `Transport._recv` (lines 168-175): an
`error` frame raises `WokwiError`, a response frame with its error flag
set raises `WokwiError("Server error {code}: {message}")` (with the
default result dict `{"code": -1, "message": "Unknown error"}` when the
`result` key is absent, and a `KeyError` when a present result dict
lacks `code` or `message`); every other frame is returned. -/
def Transport.recv_classify (f : Frame) : Except TransportException Frame :=
  match f with
  | .errorMsg m => .error (.wokwiError ("Server error: " ++ m))
  | .response _ _ result true =>
      let r := result.getD { code := some (-1), message := some "Unknown error" }
      match r.code, r.message with
      | some c, some m =>
          .error (.wokwiError ("Server error " ++ toString c ++ ": " ++ m))
      | _, _ => .error .keyError
  | f => .ok f

/-- `Transport.connect`: open the websocket, read the first frame
through `_recv`, require a `hello` frame with the supported protocol
version, and only then clear `_closed` and start the receive task.  The
returned pair is (raised exception or the server app version, the
post-call state). -/
def Transport.connect {L : Type} [DecidableEq L]
    (st : Transport L) (firstFrame : RecvInput) :
    Except TransportException String × Transport L :=
  let st1 := { st with ws := some { connOpen := true } }
  match firstFrame with
  | .wsClosed => (.error .connectionClosed, st1)
  | .frame f =>
      match Transport.recv_classify f with
      | .error e => (.error e, st1)
      | .ok (.hello pv _ appVersion) =>
          if pv = PROTOCOL_VERSION then
            (.ok appVersion, { st1 with closed := false, recv_task := .running })
          else
            (.error (.protocolError "Unsupported protocol handshake"), st1)
      | .ok _ => (.error (.protocolError "Unsupported protocol handshake"), st1)

/-- The first half of `Transport.request` (lines 89-101), up to the
point where the coroutine suspends on its future: guard
(`if self._ws is None: raise WokwiError("Not connected")`), id
allocation (`msg_id = str(self._next_id); self._next_id += 1`),
registration of the pending future, and `await self._ws.send(...)`.
The send happens outside the `try/finally`, so when it raises (the
socket is no longer open) the freshly registered entry stays in the
table.  Returns (allocated id or raised exception, post-call state). -/
def Transport.request_start {L : Type} [DecidableEq L]
    (st : Transport L) : Except TransportException Nat × Transport L :=
  match st.ws with
  | none => (.error (.wokwiError "Not connected"), st)
  | some w =>
      let msgId := st.next_id
      let st1 := { st with
        next_id := st.next_id + 1,
        response_futures := st.response_futures ++ [(msgId, .pending)] }
      if w.connOpen then (.ok msgId, st1) else (.error .connectionClosed, st1)

/-- The second half of `Transport.request` (lines 102-110): the caller
resumes once its future is done (`none` while it is still pending).  A
stored exception re-raises; a stored response with the error flag set
raises `ServerError(result.get("message", "Unknown server error"))`;
otherwise the response is returned.  The `finally` block pops the
table entry in every one of these cases. -/
def Transport.request_finish {L : Type} [DecidableEq L]
    (st : Transport L) (msgId : Nat) :
    Option (Except TransportException RespData × Transport L) :=
  match getEntry msgId st.response_futures with
  | none => none
  | some .pending => none
  | some (.result resp) =>
      let st' := { st with response_futures := eraseEntry msgId st.response_futures }
      if resp.error then
        some (.error (.serverError (((resp.result.getD { code := none, message := none }).message).getD
          "Unknown server error")), st')
      else
        some (.ok resp, st')
  | some (.exn e) =>
      some (.error e, { st with response_futures := eraseEntry msgId st.response_futures })

/-- The `finally` block of `Transport._background_recv` (lines 150-155):
when the transport is marked closed, fail every still-pending future
with `RuntimeError("Transport receive loop exited")`. -/
def Transport.recv_finally {L : Type} (st : Transport L) : Transport L :=
  if st.closed then
    { st with response_futures :=
        failUndone (.runtimeError "Transport receive loop exited") st.response_futures }
  else st

/-- The shared teardown of `_background_recv`'s exception handlers:
mark closed, fail every not-yet-done future with the exception, close
the websocket (errors suppressed). -/
def Transport.teardownWith {L : Type} (e : TransportException) (st : Transport L) :
    Transport L :=
  { st with
    closed := true,
    response_futures := failUndone e st.response_futures,
    ws := st.ws.map (fun _ => { connOpen := false }) }

/-- One iteration of `Transport._background_recv` (lines 112-155) on a
single read, including the surrounding exception handlers and the
`finally` block when the loop terminates on this iteration:
* loop guard `while not self._closed and self._ws is not None`;
* a read that raises `websockets.ConnectionClosed`: mark closed, fail
  pending futures, close the socket, re-raise when `throw_error`;
* a frame `_recv` classifies as an error (which includes every response
  frame whose error flag is set): warn, and when `throw_error` tear the
  transport down re-raising; otherwise keep looping;
* an event frame: dispatch to the listeners of its type in order;
* a response frame: find the future by id; when absent or already done,
  silently `continue`; otherwise `set_result`;
* any other frame (e.g. a stray hello): ignored by the if/elif chain. -/
def Transport.background_recv_step {L : Type} [DecidableEq L]
    (throw_error : Bool) (st : Transport L) (inp : RecvInput) :
    RecvOutcome L × Transport L :=
  if st.closed || st.ws.isNone then
    (.ended, Transport.recv_finally { st with recv_task := .completed })
  else
    match inp with
    | .wsClosed =>
        let st1 := Transport.teardownWith .connectionClosed st
        if throw_error then
          (.died .connectionClosed,
           Transport.recv_finally { st1 with recv_task := .failed .connectionClosed })
        else
          (.ended, Transport.recv_finally { st1 with recv_task := .completed })
    | .frame f =>
        match Transport.recv_classify f with
        | .error e =>
            if throw_error then
              let st1 := Transport.teardownWith e st
              (.died e, Transport.recv_finally { st1 with recv_task := .failed e })
            else
              (.looped [], st)
        | .ok (.event ev _ _) => (.looped (Transport.dispatch_event st ev), st)
        | .ok (.response oid cmd res err) =>
            match oid with
            | none => (.looped [], st)
            | some i =>
                match getEntry i st.response_futures with
                | some .pending =>
                    let resp : RespData :=
                      { id := oid, command := cmd, result := res, error := err }
                    (.looped [],
                     { st with response_futures :=
                         setEntry i (.result resp) st.response_futures })
                | _ => (.looped [], st)
        | .ok _ => (.looped [], st)

/-- `Transport.close` (lines 56-63): set `_closed`, and when a receive
task exists cancel it and await it suppressing only `CancelledError`.
Cancelling a running task makes its `finally` run with `_closed` set,
failing every still-pending future; awaiting a task that already died
with an exception re-raises that exception, in which case
`await self._ws.close()` is never reached.  Returns (re-raised
exception if any, post-call state). -/
def Transport.close {L : Type} (st : Transport L) :
    Option TransportException × Transport L :=
  let st1 := { st with closed := true }
  let closeWs := fun (s : Transport L) =>
    { s with ws := s.ws.map (fun _ => { connOpen := false }) }
  match st1.recv_task with
  | .noTask => (none, closeWs st1)
  | .running =>
      (none, closeWs { st1 with
        response_futures :=
          failUndone (.runtimeError "Transport receive loop exited") st1.response_futures,
        recv_task := .cancelledTask })
  | .cancelledTask => (none, closeWs st1)
  | .completed => (none, closeWs st1)
  | .failed e => (some e, st1)

/-- The operations that mutate a transport, for reasoning about traces. -/
inductive TOp (L : Type) where
  | opConnect (firstFrame : RecvInput)
  | opRequestStart
  | opRequestFinish (msgId : Nat)
  | opRecv (throw_error : Bool) (inp : RecvInput)
  | opClose
  | opAddListener (event_type : String) (l : L)
  | opRemoveListener (event_type : String) (l : L)
deriving DecidableEq, Repr

/-- The state transformation of each operation (exceptions aside). -/
def execOp {L : Type} [DecidableEq L] (st : Transport L) : TOp L → Transport L
  | .opConnect f => (Transport.connect st f).2
  | .opRequestStart => (Transport.request_start st).2
  | .opRequestFinish i =>
      match Transport.request_finish st i with
      | some (_, st') => st'
      | none => st
  | .opRecv te inp => (Transport.background_recv_step te st inp).2
  | .opClose => (Transport.close st).2
  | .opAddListener t l => Transport.add_event_listener st t l
  | .opRemoveListener t l => Transport.remove_event_listener st t l

/-- Run a trace of operations from a state. -/
def runOps {L : Type} [DecidableEq L] (st : Transport L) : List (TOp L) → Transport L
  | [] => st
  | op :: ops => runOps (execOp st op) ops

/-- The request ids allocated along a trace, in order.  `request()`
allocates `self._next_id` whenever the `_ws` guard passes (even when
the subsequent send fails). -/
def allocIds {L : Type} [DecidableEq L] (st : Transport L) : List (TOp L) → List Nat
  | [] => []
  | op :: ops =>
      (match op, st.ws with
       | .opRequestStart, some _ => [st.next_id]
       | _, _ => []) ++ allocIds (execOp st op) ops

/-- `consecFromB n [a, b, c, ...]` holds when the list is exactly the
consecutive run `n, n+1, n+2, ...`. -/
def consecFromB (n : Nat) : List Nat → Bool
  | [] => true
  | x :: xs => x = n && consecFromB (n + 1) xs

/-- Python `int(x)` on a rational: truncation toward zero. -/
def pyInt (q : ℚ) : Int := Int.tdiv q.num (q.den : Int)

/-- An inbound event message as seen by client-level listeners
(`event`, `nanos`, `paused`; the payload is never consulted). -/
structure EventMsg where
  event : String
  nanos : ℚ
  paused : Bool
deriving DecidableEq, Repr

/-- An `EventQueue` object: the event type and listener it registered,
and the contents of its `asyncio.Queue` (FIFO, front = oldest). -/
structure EventQueue (L : Type) where
  event_type : String
  listener : L
  buffer : List EventMsg
deriving DecidableEq, Repr

/-- `EventQueue.__init__`: create an empty queue and register its
listener on the transport. -/
def EventQueue.subscribe {L : Type} [DecidableEq L]
    (tr : Transport L) (event_type : String) (l : L) :
    EventQueue L × Transport L :=
  ({ event_type := event_type, listener := l, buffer := [] },
   Transport.add_event_listener tr event_type l)

/-- The queue's listener firing for one event: `put_nowait` appends. -/
def EventQueue.deliver {L : Type} (q : EventQueue L) (e : EventMsg) : EventQueue L :=
  { q with buffer := q.buffer ++ [e] }

/-- `EventQueue.close`: deregister the listener from the transport.
The buffered events are not touched (the Python method's only statement
is `remove_event_listener`), which is why it returns the transport
unchanged except for the listener table and takes no queue update. -/
def EventQueue.close {L : Type} [DecidableEq L]
    (q : EventQueue L) (tr : Transport L) : Transport L :=
  Transport.remove_event_listener tr q.event_type q.listener

/-- `asyncio.QueueEmpty`. -/
inductive QueueEmpty where
  | queueEmpty
deriving DecidableEq, Repr

/-- `EventQueue.get_nowait`: return the oldest buffered event, or raise
`QueueEmpty` when the buffer is empty. -/
def EventQueue.get_nowait {L : Type} (q : EventQueue L) :
    Except QueueEmpty (EventMsg × EventQueue L) :=
  match q.buffer with
  | [] => .error .queueEmpty
  | e :: rest => .ok (e, { q with buffer := rest })

/-- `EventQueue.flush`: drain everything buffered. -/
def EventQueue.flush {L : Type} (q : EventQueue L) : EventQueue L :=
  { q with buffer := [] }

/-- The pacer-relevant state of a `WokwiClient`: `last_pause_nanos`
(updated by the permanent `sim:pause` listener `_on_pause`) and the
lazily created pause event queue's buffer. -/
structure WokwiClient where
  last_pause_nanos : Int
  pause_queue : Option (List EventMsg)
deriving DecidableEq, Repr

/-- `WokwiClient._on_pause`: `self.last_pause_nanos = int(event["nanos"])`. -/
def WokwiClient.on_pause (c : WokwiClient) (e : EventMsg) : WokwiClient :=
  { c with last_pause_nanos := pyInt e.nanos }

/-- The externally visible steps `wait_until_simulation_time` takes, in
order: issuing the `sim:pause` request, flushing the pause queue,
issuing the `sim:resume` request with its `pauseAfter` parameter, and
blocking on the pause queue until one new pause event `got` arrives. -/
inductive PacerAct where
  | cmdPause
  | flushPauseQueue
  | cmdResume (pauseAfter : Option Int)
  | awaitPauseEvent (got : EventMsg)
deriving DecidableEq, Repr

/-- `WokwiClient.wait_until_simulation_time` (client.py lines 180-194):
issue a pause, compute `remaining_nanos = seconds * 1e9 -
last_pause_nanos` (the local variable is inlined here); when
`remaining_nanos > 0`, create the pause queue if needed, flush it, issue
`resume(int(remaining))` and consume exactly one new pause event
(`arriving`), whose dispatch runs `_on_pause` and feeds the queue
before `get()` pops it; otherwise return immediately.  Yields the
action trace and the post-call client state. -/
def WokwiClient.wait_until_simulation_time (c : WokwiClient) (seconds : ℚ)
    (arriving : EventMsg) : List PacerAct × WokwiClient :=
  if seconds * 1000000000 - (c.last_pause_nanos : ℚ) > 0 then
    ([.cmdPause, .flushPauseQueue,
      .cmdResume (some (pyInt (seconds * 1000000000 - (c.last_pause_nanos : ℚ)))),
      .awaitPauseEvent arriving],
     { last_pause_nanos := pyInt arriving.nanos, pause_queue := some [] })
  else
    ([.cmdPause], c)

/-- The reachable-state invariant of the futures table: the id counter
started at 1 and only grew, every table key was allocated by the
counter (hence is below it), and keys are unique (a Python dict cannot
hold a key twice). -/
def TInv {L : Type} (st : Transport L) : Prop :=
  1 ≤ st.next_id
  ∧ (∀ k ∈ keysOf st.response_futures, k < st.next_id)
  ∧ (keysOf st.response_futures).Nodup

/-- Decidable equality for `Except`, used to evaluate the model on
concrete inputs. -/
instance instDecEqExcept {e a : Type} [DecidableEq e] [DecidableEq a] :
    DecidableEq (Except e a)
  | .ok x, .ok y =>
      if h : x = y then isTrue (by rw [h])
      else isFalse (by intro hh; cases hh; exact h rfl)
  | .ok _, .error _ => isFalse (by intro hh; cases hh)
  | .error _, .ok _ => isFalse (by intro hh; cases hh)
  | .error u, .error v =>
      if h : u = v then isTrue (by rw [h])
      else isFalse (by intro hh; cases hh; exact h rfl)

/-! ## Association list lemmas -/

theorem getEntry_append_of_some {K β : Type} [DecidableEq K] {k : K} {v : β}
    {l : List (K × β)} (l' : List (K × β)) (h : getEntry k l = some v) :
    getEntry k (l ++ l') = some v := by
  induction l with
  | nil => exact absurd h (by simp [getEntry])
  | cons p t ih =>
      obtain ⟨a, b⟩ := p
      by_cases hak : a = k
      · simpa [getEntry, hak] using h
      · simp only [getEntry, hak, if_false] at h
        simpa [getEntry, hak] using ih h

theorem getEntry_append_of_none {K β : Type} [DecidableEq K] {k : K}
    {l : List (K × β)} (l' : List (K × β)) (h : getEntry k l = none) :
    getEntry k (l ++ l') = getEntry k l' := by
  induction l with
  | nil => simp
  | cons p t ih =>
      obtain ⟨a, b⟩ := p
      by_cases hak : a = k
      · simp [getEntry, hak] at h
      · simp only [getEntry, hak, if_false] at h
        simpa [getEntry, hak] using ih h

theorem getEntry_mapVals {K β : Type} [DecidableEq K] (g : β → β) (k : K) :
    ∀ (l : List (K × β)), getEntry k (mapVals g l) = (getEntry k l).map g := by
  intro l
  induction l with
  | nil => simp [getEntry, mapVals]
  | cons p t ih =>
      obtain ⟨a, b⟩ := p
      by_cases hak : a = k
      · simp [getEntry, mapVals, hak]
      · simpa [getEntry, mapVals, hak] using ih

theorem getEntry_setEntry_ne {K β : Type} [DecidableEq K] {i j : K} (v : β)
    (hne : i ≠ j) : ∀ (l : List (K × β)), getEntry i (setEntry j v l) = getEntry i l := by
  intro l
  induction l with
  | nil => simp [getEntry, setEntry]
  | cons p t ih =>
      obtain ⟨a, b⟩ := p
      by_cases haj : a = j
      · have h2 : ¬ a = i := fun h => hne (haj ▸ h.symm)
        have h3 : ¬ j = i := fun h => hne h.symm
        simp [setEntry, getEntry, haj, h2, h3]
      · by_cases hai : a = i
        · simp [setEntry, getEntry, haj, hai, hne]
        · simp [setEntry, getEntry, haj, hai, ih]

theorem getEntry_setEntry_self {K β : Type} [DecidableEq K] {k : K} {v0 : β} (v : β)
    {l : List (K × β)} (h : getEntry k l = some v0) :
    getEntry k (setEntry k v l) = some v := by
  induction l with
  | nil => exact absurd h (by simp [getEntry])
  | cons p t ih =>
      obtain ⟨a, b⟩ := p
      by_cases hak : a = k
      · simp [getEntry, setEntry, hak]
      · simp only [getEntry, hak, if_false] at h
        simpa [setEntry, getEntry, hak] using ih h

theorem getEntry_eraseEntry_ne {K β : Type} [DecidableEq K] {i j : K}
    (hne : i ≠ j) : ∀ (l : List (K × β)), getEntry i (eraseEntry j l) = getEntry i l := by
  intro l
  induction l with
  | nil => simp [getEntry, eraseEntry]
  | cons p t ih =>
      obtain ⟨a, b⟩ := p
      by_cases haj : a = j
      · have h2 : ¬ a = i := fun h => hne (haj ▸ h.symm)
        have h3 : ¬ j = i := fun h => hne h.symm
        simp [eraseEntry, getEntry, haj, h2, h3]
      · by_cases hai : a = i
        · simp [eraseEntry, getEntry, haj, hai, hne]
        · simp [eraseEntry, getEntry, haj, hai, ih]

theorem getEntry_of_not_mem {K β : Type} [DecidableEq K] {k : K}
    {l : List (K × β)} (h : k ∉ keysOf l) : getEntry k l = none := by
  induction l with
  | nil => simp [getEntry]
  | cons p t ih =>
      obtain ⟨a, b⟩ := p
      simp only [keysOf, List.map_cons, List.mem_cons] at h
      push_neg at h
      have hak : ¬ a = k := fun hh => h.1 hh.symm
      simp only [getEntry, hak, if_false]
      exact ih (by simpa [keysOf] using h.2)

theorem mem_keysOf_of_getEntry {K β : Type} [DecidableEq K] {k : K} {v : β}
    {l : List (K × β)} (h : getEntry k l = some v) : k ∈ keysOf l := by
  induction l with
  | nil => exact absurd h (by simp [getEntry])
  | cons p t ih =>
      obtain ⟨a, b⟩ := p
      by_cases hak : a = k
      · simp [keysOf, hak]
      · simp only [getEntry, hak, if_false] at h
        simp only [keysOf, List.map_cons, List.mem_cons]
        exact Or.inr (ih h)

theorem getEntry_eraseEntry_self_of_nodup {K β : Type} [DecidableEq K] {k : K}
    {l : List (K × β)} (h : (keysOf l).Nodup) : getEntry k (eraseEntry k l) = none := by
  induction l with
  | nil => simp [getEntry, eraseEntry]
  | cons p t ih =>
      obtain ⟨a, b⟩ := p
      simp only [keysOf, List.map_cons, List.nodup_cons] at h
      by_cases hak : a = k
      · subst hak
        simp only [eraseEntry, if_pos rfl]
        exact getEntry_of_not_mem (by simpa [keysOf] using h.1)
      · simp only [eraseEntry, hak, if_false, getEntry]
        exact ih (by simpa [keysOf] using h.2)

theorem keysOf_setEntry {K β : Type} [DecidableEq K] (k : K) (v : β) :
    ∀ (l : List (K × β)), keysOf (setEntry k v l) = keysOf l := by
  intro l
  induction l with
  | nil => rfl
  | cons p t ih =>
      obtain ⟨a, b⟩ := p
      by_cases hak : a = k
      · subst hak; simp [setEntry, keysOf]
      · simpa [setEntry, keysOf, hak] using ih

theorem keysOf_mapVals {K β : Type} (g : β → β) (l : List (K × β)) :
    keysOf (mapVals g l) = keysOf l := by
  simp [keysOf, mapVals, List.map_map]

theorem keysOf_eraseEntry_sublist {K β : Type} [DecidableEq K] (k : K) :
    ∀ (l : List (K × β)), List.Sublist (keysOf (eraseEntry k l)) (keysOf l) := by
  intro l
  induction l with
  | nil => simp [eraseEntry, keysOf]
  | cons p t ih =>
      obtain ⟨a, b⟩ := p
      by_cases hak : a = k
      · simp only [eraseEntry, hak, if_pos rfl, keysOf, List.map_cons]
        exact List.sublist_cons_self _ _
      · simp only [eraseEntry, hak, if_false, keysOf, List.map_cons]
        exact List.Sublist.cons₂ _ ih

theorem keysOf_append {K β : Type} (l l' : List (K × β)) :
    keysOf (l ++ l') = keysOf l ++ keysOf l' := by
  simp [keysOf]

theorem failOne_isDone (e : TransportException) (f : FutureState) :
    (failOne e f).isDone = true := by
  cases f <;> simp [failOne, FutureState.isDone]

theorem failOne_of_isDone (e : TransportException) {f : FutureState}
    (h : f.isDone = true) : failOne e f = f := by
  simp [failOne, h]

theorem failUndone_isDone (e : TransportException) (l : List (Nat × FutureState)) :
    ∀ p ∈ failUndone e l, p.2.isDone = true := by
  intro p hp
  simp only [failUndone, mapVals, List.mem_map] at hp
  obtain ⟨q, _, rfl⟩ := hp
  exact failOne_isDone e q.2

theorem getEntry_failUndone (e : TransportException) (k : Nat)
    (l : List (Nat × FutureState)) :
    getEntry k (failUndone e l) = (getEntry k l).map (failOne e) :=
  getEntry_mapVals (failOne e) k l

/-! ## Per-operation facts about the transport state -/

theorem failUndone_keys (e : TransportException) (l : List (Nat × FutureState)) :
    keysOf (failUndone e l) = keysOf l :=
  keysOf_mapVals (failOne e) l

theorem connect_shape {L : Type} [DecidableEq L] (st : Transport L) (f : RecvInput) :
    ((Transport.connect st f).2.next_id = st.next_id)
    ∧ ((Transport.connect st f).2.response_futures = st.response_futures) := by
  unfold Transport.connect
  repeat' split
  all_goals exact ⟨rfl, rfl⟩

theorem request_start_none {L : Type} [DecidableEq L] {st : Transport L}
    (h : st.ws = none) :
    Transport.request_start st = (.error (.wokwiError "Not connected"), st) := by
  unfold Transport.request_start
  rw [h]

theorem request_start_some {L : Type} [DecidableEq L] {st : Transport L} {w : Ws}
    (h : st.ws = some w) :
    ((Transport.request_start st).2.next_id = st.next_id + 1)
    ∧ ((Transport.request_start st).2.response_futures
        = st.response_futures ++ [(st.next_id, FutureState.pending)])
    ∧ ((Transport.request_start st).1
        = if w.connOpen then .ok st.next_id else .error .connectionClosed) := by
  unfold Transport.request_start
  rw [h]
  by_cases hw : w.connOpen <;> simp [hw]

theorem request_start_shape {L : Type} [DecidableEq L] (st : Transport L) :
    (st.next_id ≤ (Transport.request_start st).2.next_id)
    ∧ ((Transport.request_start st).2.response_futures = st.response_futures
       ∨ (Transport.request_start st).2.response_futures
          = st.response_futures ++ [(st.next_id, FutureState.pending)]) := by
  cases hws : st.ws with
  | none => rw [request_start_none hws]; exact ⟨le_refl _, Or.inl rfl⟩
  | some w =>
      obtain ⟨h1, h2, _⟩ := request_start_some hws
      exact ⟨by omega, Or.inr h2⟩

theorem request_finish_cases {L : Type} [DecidableEq L] (st : Transport L) (i : Nat) :
    (match Transport.request_finish st i with
     | some (_, st') => st'
     | none => st).next_id = st.next_id
    ∧ ((match Transport.request_finish st i with
        | some (_, st') => st'
        | none => st).response_futures = st.response_futures
       ∨ (match Transport.request_finish st i with
          | some (_, st') => st'
          | none => st).response_futures = eraseEntry i st.response_futures) := by
  unfold Transport.request_finish
  cases hg : getEntry i st.response_futures with
  | none => simp [hg]
  | some f =>
      cases f with
      | pending => simp [hg]
      | result resp => by_cases he : resp.error <;> simp [hg, he]
      | exn e => simp [hg]

theorem request_finish_erases {L : Type} [DecidableEq L] {st : Transport L} {i : Nat}
    {out : Except TransportException RespData} {st' : Transport L}
    (h : Transport.request_finish st i = some (out, st')) :
    st'.response_futures = eraseEntry i st.response_futures
    ∧ st'.next_id = st.next_id := by
  unfold Transport.request_finish at h
  cases hg : getEntry i st.response_futures with
  | none => rw [hg] at h; exact absurd h (by simp)
  | some f =>
      cases f with
      | pending => rw [hg] at h; exact absurd h (by simp)
      | result resp =>
          rw [hg] at h
          by_cases he : resp.error
          · simp only [he, if_true] at h
            rw [Option.some_inj] at h
            cases h
            exact ⟨rfl, rfl⟩
          · simp only [he, if_false, Bool.false_eq_true] at h
            rw [Option.some_inj] at h
            cases h
            exact ⟨rfl, rfl⟩
      | exn e =>
          rw [hg] at h
          rw [Option.some_inj] at h
          cases h
          exact ⟨rfl, rfl⟩

theorem recv_finally_shape {L : Type} (st : Transport L) :
    ((Transport.recv_finally st).next_id = st.next_id)
    ∧ (keysOf (Transport.recv_finally st).response_futures = keysOf st.response_futures)
    ∧ ((Transport.recv_finally st).ws = st.ws)
    ∧ ((Transport.recv_finally st).recv_task = st.recv_task) := by
  unfold Transport.recv_finally
  split <;> simp [failUndone_keys]

theorem bg_shape {L : Type} [DecidableEq L] (te : Bool) (st : Transport L)
    (inp : RecvInput) :
    ((Transport.background_recv_step te st inp).2.next_id = st.next_id)
    ∧ (keysOf (Transport.background_recv_step te st inp).2.response_futures
        = keysOf st.response_futures) := by
  unfold Transport.background_recv_step Transport.teardownWith
  repeat' split
  all_goals
    simp [recv_finally_shape, failUndone_keys, keysOf_setEntry]

theorem close_shape {L : Type} (st : Transport L) :
    ((Transport.close st).2.next_id = st.next_id)
    ∧ (keysOf (Transport.close st).2.response_futures = keysOf st.response_futures)
    ∧ ((Transport.close st).2.closed = true) := by
  unfold Transport.close
  cases hrt : st.recv_task <;> simp [hrt, failUndone_keys]

theorem add_listener_shape {L : Type} [DecidableEq L] (st : Transport L)
    (t : String) (l : L) :
    ((Transport.add_event_listener st t l).next_id = st.next_id)
    ∧ ((Transport.add_event_listener st t l).response_futures = st.response_futures) := by
  unfold Transport.add_event_listener
  split <;> simp

theorem remove_listener_shape {L : Type} [DecidableEq L] (st : Transport L)
    (t : String) (l : L) :
    ((Transport.remove_event_listener st t l).next_id = st.next_id)
    ∧ ((Transport.remove_event_listener st t l).response_futures = st.response_futures) := by
  unfold Transport.remove_event_listener
  cases hg : getEntry t st.event_listeners with
  | none => simp [hg]
  | some ls =>
      simp only [hg]
      split <;> simp

/-! ## Invariant preservation and trace lemmas -/

theorem tinv_init (L : Type) [DecidableEq L] : TInv (Transport.init L) := by
  refine ⟨le_refl 1, ?_, ?_⟩ <;> simp [Transport.init, keysOf]

theorem tinv_execOp {L : Type} [DecidableEq L] (st : Transport L) (op : TOp L)
    (h : TInv st) : TInv (execOp st op) := by
  obtain ⟨h1, h2, h3⟩ := h
  cases op with
  | opConnect f =>
      obtain ⟨e1, e2⟩ := connect_shape st f
      exact ⟨by rw [execOp, e1]; omega, by rw [execOp, e1, e2]; exact fun k hk => h2 k hk,
             by rw [execOp, e2]; exact h3⟩
  | opRequestStart =>
      cases hws : st.ws with
      | none =>
          have he : execOp st .opRequestStart = st := by
            simp [execOp, request_start_none hws]
          rw [he]
          exact ⟨h1, h2, h3⟩
      | some w =>
          obtain ⟨e1, e2, _⟩ := request_start_some hws
          have hkeys : keysOf (execOp st TOp.opRequestStart).response_futures
              = keysOf st.response_futures ++ [st.next_id] := by
            rw [execOp, e2, keysOf_append]; rfl
          refine ⟨?_, ?_, ?_⟩
          · rw [execOp, e1]; omega
          · rw [execOp] at hkeys ⊢
            rw [hkeys, e1]
            intro k hk
            rcases List.mem_append.mp hk with hk | hk
            · exact lt_trans (h2 k hk) (by omega)
            · simp at hk; omega
          · rw [execOp] at hkeys ⊢
            rw [hkeys]
            rw [List.nodup_append]
            refine ⟨h3, List.nodup_singleton _, ?_⟩
            intro a ha hb
            simp at hb
            subst hb
            exact absurd (h2 _ ha) (lt_irrefl _)
  | opRequestFinish i =>
      obtain ⟨e1, e2⟩ := request_finish_cases st i
      rcases e2 with e2 | e2
      · exact ⟨by rw [execOp, e1]; omega, by rw [execOp, e1, e2]; exact h2,
               by rw [execOp, e2]; exact h3⟩
      · have hsub := keysOf_eraseEntry_sublist i st.response_futures
        refine ⟨by rw [execOp, e1]; omega, ?_, ?_⟩
        · rw [execOp, e1, e2]
          intro k hk
          exact h2 k (hsub.subset hk)
        · rw [execOp, e2]
          exact h3.sublist hsub
  | opRecv te inp =>
      obtain ⟨e1, e2⟩ := bg_shape te st inp
      exact ⟨by rw [execOp, e1]; omega, by rw [execOp, e1, e2]; exact h2,
             by rw [execOp, e2]; exact h3⟩
  | opClose =>
      obtain ⟨e1, e2, _⟩ := close_shape st
      exact ⟨by rw [execOp, e1]; omega, by rw [execOp, e1, e2]; exact h2,
             by rw [execOp, e2]; exact h3⟩
  | opAddListener t l =>
      obtain ⟨e1, e2⟩ := add_listener_shape st t l
      exact ⟨by rw [execOp, e1]; omega, by rw [execOp, e1, e2]; exact h2,
             by rw [execOp, e2]; exact h3⟩
  | opRemoveListener t l =>
      obtain ⟨e1, e2⟩ := remove_listener_shape st t l
      exact ⟨by rw [execOp, e1]; omega, by rw [execOp, e1, e2]; exact h2,
             by rw [execOp, e2]; exact h3⟩

theorem tinv_runOps {L : Type} [DecidableEq L] (ops : List (TOp L)) :
    ∀ (st : Transport L), TInv st → TInv (runOps st ops) := by
  induction ops with
  | nil => exact fun st h => h
  | cons op ops ih => exact fun st h => ih (execOp st op) (tinv_execOp st op h)

theorem execOp_next_id_mono {L : Type} [DecidableEq L] (st : Transport L) (op : TOp L) :
    st.next_id ≤ (execOp st op).next_id := by
  cases op with
  | opConnect f => rw [execOp, (connect_shape st f).1]
  | opRequestStart => exact (request_start_shape st).1
  | opRequestFinish i => rw [execOp, (request_finish_cases st i).1]
  | opRecv te inp => rw [execOp, (bg_shape te st inp).1]
  | opClose => rw [execOp, (close_shape st).1]
  | opAddListener t l => rw [execOp, (add_listener_shape st t l).1]
  | opRemoveListener t l => rw [execOp, (remove_listener_shape st t l).1]

theorem allocIds_consec {L : Type} [DecidableEq L] :
    ∀ (ops : List (TOp L)) (st : Transport L),
      consecFromB st.next_id (allocIds st ops) = true := by
  intro ops
  induction ops with
  | nil => intro st; rfl
  | cons op ops ih =>
      intro st
      cases op with
      | opRequestStart =>
          cases hws : st.ws with
          | none =>
              have he : execOp st .opRequestStart = st := by
                simp [execOp, request_start_none hws]
              simpa [allocIds, hws, he] using ih st
          | some w =>
              have e1 := (request_start_some hws).1
              have hrec := ih (execOp st .opRequestStart)
              rw [execOp, e1] at hrec
              simpa [allocIds, hws, consecFromB, execOp] using hrec
      | opConnect f =>
          have := ih (execOp st (.opConnect f))
          rw [execOp, (connect_shape st f).1] at this
          simpa [allocIds] using this
      | opRequestFinish i =>
          have := ih (execOp st (.opRequestFinish i))
          rw [execOp, (request_finish_cases st i).1] at this
          simpa [allocIds] using this
      | opRecv te inp =>
          have := ih (execOp st (.opRecv te inp))
          rw [execOp, (bg_shape te st inp).1] at this
          simpa [allocIds] using this
      | opClose =>
          have := ih (execOp st .opClose)
          rw [execOp, (close_shape st).1] at this
          simpa [allocIds] using this
      | opAddListener t l =>
          have := ih (execOp st (.opAddListener t l))
          rw [execOp, (add_listener_shape st t l).1] at this
          simpa [allocIds] using this
      | opRemoveListener t l =>
          have := ih (execOp st (.opRemoveListener t l))
          rw [execOp, (remove_listener_shape st t l).1] at this
          simpa [allocIds] using this

theorem recv_finally_done {L : Type} (st : Transport L) (k : Nat) (f : FutureState)
    (hk : getEntry k st.response_futures = some f) (hd : f.isDone = true) :
    getEntry k (Transport.recv_finally st).response_futures = some f := by
  unfold Transport.recv_finally
  split
  · show getEntry k (failUndone _ st.response_futures) = some f
    rw [getEntry_failUndone, hk]
    simp [failOne_of_isDone _ hd]
  · exact hk

theorem bg_done_stable {L : Type} [DecidableEq L] (te : Bool) (st : Transport L)
    (inp : RecvInput) {k : Nat} {f : FutureState}
    (hk : getEntry k st.response_futures = some f) (hd : f.isDone = true) :
    getEntry k (Transport.background_recv_step te st inp).2.response_futures = some f := by
  have hfail : ∀ e, getEntry k (failUndone e st.response_futures) = some f := by
    intro e
    rw [getEntry_failUndone, hk]
    simp [failOne_of_isDone _ hd]
  unfold Transport.background_recv_step Transport.teardownWith
  by_cases hg : (st.closed || st.ws.isNone) = true
  · simp only [hg, if_true]
    exact recv_finally_done _ k f hk hd
  · simp only [hg, if_false, Bool.false_eq_true]
    cases inp with
    | wsClosed =>
        by_cases hte : te
        · simp only [hte, if_true]
          exact recv_finally_done _ k f (hfail _) hd
        · simp only [hte, if_false, Bool.false_eq_true]
          exact recv_finally_done _ k f (hfail _) hd
    | frame fr =>
        cases hc : Transport.recv_classify fr with
        | error e =>
            simp only [hc]
            by_cases hte : te
            · simp only [hte, if_true]
              exact recv_finally_done _ k f (hfail _) hd
            · simp only [hte, if_false, Bool.false_eq_true]
              exact hk
        | ok fr2 =>
            cases fr2 with
            | hello pv an av => simp only [hc]; exact hk
            | errorMsg m => simp only [hc]; exact hk
            | event ev n p => simp only [hc]; exact hk
            | response oid cmd res err =>
                cases oid with
                | none => simp only [hc]; exact hk
                | some i =>
                    simp only [hc]
                    by_cases hki : k = i
                    · subst hki
                      rw [hk]
                      cases f with
                      | pending => simp [FutureState.isDone] at hd
                      | result r => exact hk
                      | exn e2 => exact hk
                    · cases hgi : getEntry i st.response_futures with
                      | none => exact hk
                      | some fi =>
                          cases fi with
                          | pending =>
                              show getEntry k (setEntry i _ st.response_futures) = some f
                              rw [getEntry_setEntry_ne _ hki]
                              exact hk
                          | result r => exact hk
                          | exn e2 => exact hk

theorem close_done_stable {L : Type} (st : Transport L) {k : Nat} {f : FutureState}
    (hk : getEntry k st.response_futures = some f) (hd : f.isDone = true) :
    getEntry k (Transport.close st).2.response_futures = some f := by
  unfold Transport.close
  cases hrt : st.recv_task with
  | running =>
      show getEntry k (failUndone _ st.response_futures) = some f
      rw [getEntry_failUndone, hk]
      simp [failOne_of_isDone _ hd]
  | noTask => exact hk
  | cancelledTask => exact hk
  | completed => exact hk
  | failed e => exact hk

theorem execOp_done_stable {L : Type} [DecidableEq L] (st : Transport L) (op : TOp L)
    (hnd : (keysOf st.response_futures).Nodup) {k : Nat} {f : FutureState}
    (hk : getEntry k st.response_futures = some f) (hd : f.isDone = true) :
    getEntry k (execOp st op).response_futures = some f
    ∨ getEntry k (execOp st op).response_futures = none := by
  cases op with
  | opConnect fr =>
      rw [execOp, (connect_shape st fr).2]
      exact Or.inl hk
  | opRequestStart =>
      rcases (request_start_shape st).2 with e | e
      · rw [execOp, e]; exact Or.inl hk
      · rw [execOp, e]
        exact Or.inl (getEntry_append_of_some _ hk)
  | opRequestFinish i =>
      cases hfin : Transport.request_finish st i with
      | none =>
          have : execOp st (.opRequestFinish i) = st := by
            simp [execOp, hfin]
          rw [this]
          exact Or.inl hk
      | some pr =>
          obtain ⟨out, st'⟩ := pr
          have e := (request_finish_erases hfin).1
          have : execOp st (.opRequestFinish i) = st' := by
            simp [execOp, hfin]
          rw [this, e]
          by_cases hki : k = i
          · subst hki
            exact Or.inr (getEntry_eraseEntry_self_of_nodup hnd)
          · rw [getEntry_eraseEntry_ne hki]
            exact Or.inl hk
  | opRecv te inp =>
      exact Or.inl (bg_done_stable te st inp hk hd)
  | opClose =>
      exact Or.inl (close_done_stable st hk hd)
  | opAddListener t l =>
      rw [execOp, (add_listener_shape st t l).2]
      exact Or.inl hk
  | opRemoveListener t l =>
      rw [execOp, (remove_listener_shape st t l).2]
      exact Or.inl hk

theorem setEntry_eq_self {K β : Type} [DecidableEq K] {k : K} {v : β} :
    ∀ {l : List (K × β)}, getEntry k l = some v → setEntry k v l = l := by
  intro l
  induction l with
  | nil => intro h; exact absurd h (by simp [getEntry])
  | cons p t ih =>
      obtain ⟨a, b⟩ := p
      intro h
      by_cases hak : a = k
      · subst hak
        have hb : b = v := by simpa [getEntry] using h
        subst hb
        simp [setEntry]
      · simp only [getEntry, hak, if_false] at h
        simp [setEntry, hak, ih h]

theorem close_running_resolves {L : Type} {st : Transport L}
    (hrt : st.recv_task = RecvTaskState.running) :
    (Transport.close st).1 = none
    ∧ (∀ p ∈ (Transport.close st).2.response_futures, p.2.isDone = true)
    ∧ (∀ i, getEntry i st.response_futures = some FutureState.pending →
        getEntry i (Transport.close st).2.response_futures
          = some (FutureState.exn
              (TransportException.runtimeError "Transport receive loop exited"))) := by
  have h1 : Transport.close st
      = (none, { st with
          closed := true,
          response_futures :=
            failUndone (TransportException.runtimeError "Transport receive loop exited")
              st.response_futures,
          recv_task := RecvTaskState.cancelledTask,
          ws := st.ws.map (fun _ => { connOpen := false }) }) := by
    unfold Transport.close
    simp [hrt]
  rw [h1]
  refine ⟨rfl, ?_, ?_⟩
  · intro p hp
    exact failUndone_isDone _ _ p hp
  · intro i hi
    show getEntry i (failUndone _ st.response_futures) = _
    rw [getEntry_failUndone, hi]
    simp [failOne, FutureState.isDone]

theorem close_no_raise {L : Type} {st : Transport L}
    (h : ∀ e, st.recv_task ≠ RecvTaskState.failed e) :
    (Transport.close st).1 = none := by
  unfold Transport.close
  cases hrt : st.recv_task with
  | failed e => exact absurd hrt (h e)
  | noTask => rfl
  | running => rfl
  | cancelledTask => rfl
  | completed => rfl

theorem close_state_idempotent {L : Type} (st : Transport L) :
    (Transport.close (Transport.close st).2).2 = (Transport.close st).2 := by
  unfold Transport.close
  cases hrt : st.recv_task <;> cases hws : st.ws <;> simp [hrt, hws]

/-! ## Claim theorems -/

/-- C1 (code bug): contrary to the claim that an error-flagged response
only fails its own `request()` call with `ServerError`, the code's
`_recv` raises `WokwiError("Server error {code}: {message}")` before
the response can reach the dispatcher, so the receive loop's generic
exception handler (with the default `throw_error=True`) marks the
transport closed, fails EVERY pending request with that `WokwiError`
(not `ServerError`) and kills the loop.  Evaluated here at the failing
input: two pending requests (ids 1 and 2) and the inbound frame
`{type:"response", id:"1", error:true, result:{code:3,message:"boom"}}`.
The `ServerError` branch of `request()` is unreachable for
wire-delivered responses. -/
theorem error_flagged_response_tears_down_transport :
    (Transport.recv_classify (Frame.response (some 1) "sim:start" (some { code := some 3, message := some "boom" }) true)
      = Except.error (TransportException.wokwiError "Server error 3: boom"))
    ∧ (Transport.background_recv_step true (runOps (Transport.init Nat) [TOp.opConnect (RecvInput.frame (Frame.hello 1 "wokwi" "1.0.0")), TOp.opRequestStart, TOp.opRequestStart]) (RecvInput.frame (Frame.response (some 1) "sim:start" (some { code := some 3, message := some "boom" }) true))).1
        = RecvOutcome.died (TransportException.wokwiError "Server error 3: boom")
    ∧ (Transport.background_recv_step true (runOps (Transport.init Nat) [TOp.opConnect (RecvInput.frame (Frame.hello 1 "wokwi" "1.0.0")), TOp.opRequestStart, TOp.opRequestStart]) (RecvInput.frame (Frame.response (some 1) "sim:start" (some { code := some 3, message := some "boom" }) true))).2.closed = true
    ∧ getEntry 1 (Transport.background_recv_step true (runOps (Transport.init Nat) [TOp.opConnect (RecvInput.frame (Frame.hello 1 "wokwi" "1.0.0")), TOp.opRequestStart, TOp.opRequestStart]) (RecvInput.frame (Frame.response (some 1) "sim:start" (some { code := some 3, message := some "boom" }) true))).2.response_futures
        = some (FutureState.exn (TransportException.wokwiError "Server error 3: boom"))
    ∧ getEntry 2 (Transport.background_recv_step true (runOps (Transport.init Nat) [TOp.opConnect (RecvInput.frame (Frame.hello 1 "wokwi" "1.0.0")), TOp.opRequestStart, TOp.opRequestStart]) (RecvInput.frame (Frame.response (some 1) "sim:start" (some { code := some 3, message := some "boom" }) true))).2.response_futures
        = some (FutureState.exn (TransportException.wokwiError "Server error 3: boom"))
    ∧ (Transport.request_finish (Transport.background_recv_step true (runOps (Transport.init Nat) [TOp.opConnect (RecvInput.frame (Frame.hello 1 "wokwi" "1.0.0")), TOp.opRequestStart, TOp.opRequestStart]) (RecvInput.frame (Frame.response (some 1) "sim:start" (some { code := some 3, message := some "boom" }) true))).2 1).map Prod.fst
        = some (Except.error (TransportException.wokwiError "Server error 3: boom")) := by
  decide

/-- C2 (amended): closing a transport whose receive loop is running
resolves every pending request with the descriptive
`RuntimeError("Transport receive loop exited")` by the time `close()`
returns, and `close()` raises nothing; `close()` never raises from any
state whose receive task has not already died with an exception
(including a transport that never connected, for which it simply marks
the closed flag); and `close()` is idempotent on the state.  (The
original claim's "safe from any state" fails when the receive loop
already died re-raising a connection error: see the counterexample.) -/
theorem close_resolves_pending_and_is_idempotent (L : Type) [DecidableEq L]
    (st : Transport L) :
    (st.recv_task = RecvTaskState.running →
      (Transport.close st).1 = none
      ∧ (∀ p ∈ (Transport.close st).2.response_futures, p.2.isDone = true)
      ∧ (∀ i, getEntry i st.response_futures = some FutureState.pending →
          getEntry i (Transport.close st).2.response_futures
            = some (FutureState.exn
                (TransportException.runtimeError "Transport receive loop exited"))))
    ∧ ((∀ e, st.recv_task ≠ RecvTaskState.failed e) → (Transport.close st).1 = none)
    ∧ (Transport.close (Transport.close st).2).2 = (Transport.close st).2
    ∧ Transport.close (Transport.init L)
        = (none, { Transport.init L with closed := true }) := by
  refine ⟨?_, ?_, close_state_idempotent st, ?_⟩
  · intro hrt
    exact close_running_resolves hrt
  · intro h
    exact close_no_raise h
  · rfl

/-- C2 witness: a connected transport with one pending request; closing
it raises nothing, fails the pending request with the runtime error,
and a second close leaves the state untouched. -/
theorem close_resolves_pending_witness :
    (Transport.close (runOps (Transport.init Nat)
        [TOp.opConnect (RecvInput.frame (Frame.hello 1 "wokwi" "1.0.0")),
         TOp.opRequestStart])).1 = none
    ∧ getEntry 1 (Transport.close (runOps (Transport.init Nat)
        [TOp.opConnect (RecvInput.frame (Frame.hello 1 "wokwi" "1.0.0")),
         TOp.opRequestStart])).2.response_futures
        = some (FutureState.exn
            (TransportException.runtimeError "Transport receive loop exited"))
    ∧ (Transport.close (Transport.close (runOps (Transport.init Nat)
        [TOp.opConnect (RecvInput.frame (Frame.hello 1 "wokwi" "1.0.0")),
         TOp.opRequestStart])).2).2
      = (Transport.close (runOps (Transport.init Nat)
        [TOp.opConnect (RecvInput.frame (Frame.hello 1 "wokwi" "1.0.0")),
         TOp.opRequestStart])).2 := by
  have h := close_resolves_pending_and_is_idempotent Nat
    (runOps (Transport.init Nat)
      [TOp.opConnect (RecvInput.frame (Frame.hello 1 "wokwi" "1.0.0")),
       TOp.opRequestStart])
  exact ⟨(h.1 (by decide)).1, (h.1 (by decide)).2.2 1 (by decide), h.2.2.1⟩

/-- C2 counterexample: when the receive loop has already died
re-raising `websockets.ConnectionClosed` (server dropped the
connection, `throw_error=True`), `close()` awaits the dead task, which
re-raises that exception — only `CancelledError` is suppressed — so
`close()` is not exception-safe from every state, refuting the claim's
"safe from any state". -/
theorem close_after_loop_death_raises :
    (runOps (Transport.init Nat) [TOp.opConnect (RecvInput.frame (Frame.hello 1 "wokwi" "1.0.0")), TOp.opRequestStart, TOp.opRecv true RecvInput.wsClosed]).recv_task
      = RecvTaskState.failed TransportException.connectionClosed
    ∧ (Transport.close (runOps (Transport.init Nat) [TOp.opConnect (RecvInput.frame (Frame.hello 1 "wokwi" "1.0.0")), TOp.opRequestStart, TOp.opRecv true RecvInput.wsClosed])).1
        = some TransportException.connectionClosed := by
  decide

/-- C3 (amended): `EventQueue.close()` only deregisters the listener
from the transport; it does not discard buffered events.  A subsequent
`get_nowait()` keeps returning buffered events in FIFO order and fails
with `QueueEmpty` only once the buffer is empty; `flush()` is the
operation that discards buffered events. -/
theorem event_queue_close_keeps_buffered_events (L : Type) [DecidableEq L]
    (tr : Transport L) (q : EventQueue L) (e : EventMsg) (rest : List EventMsg) :
    (EventQueue.close q tr
      = Transport.remove_event_listener tr q.event_type q.listener)
    ∧ (q.buffer = e :: rest →
        EventQueue.get_nowait q = Except.ok (e, { q with buffer := rest }))
    ∧ (q.buffer = [] →
        EventQueue.get_nowait q = Except.error QueueEmpty.queueEmpty)
    ∧ (EventQueue.flush q).buffer = [] := by
  refine ⟨rfl, ?_, ?_, rfl⟩
  · intro h
    unfold EventQueue.get_nowait
    rw [h]
  · intro h
    unfold EventQueue.get_nowait
    rw [h]

/-- C3 witness: a queue with one buffered event returns it through
`get_nowait`, an empty queue raises `QueueEmpty`, and `flush` empties
the buffer. -/
theorem event_queue_close_keeps_buffered_events_witness :
    EventQueue.get_nowait
        (EventQueue.mk "serial-monitor:data" (0 : Nat)
          [EventMsg.mk "serial-monitor:data" 7 false])
      = Except.ok (EventMsg.mk "serial-monitor:data" 7 false,
          EventQueue.mk "serial-monitor:data" (0 : Nat) [])
    ∧ EventQueue.get_nowait (EventQueue.mk "serial-monitor:data" (0 : Nat) [])
      = Except.error QueueEmpty.queueEmpty := by
  have h1 := event_queue_close_keeps_buffered_events Nat (Transport.init Nat)
    (EventQueue.mk "serial-monitor:data" (0 : Nat)
      [EventMsg.mk "serial-monitor:data" 7 false])
    (EventMsg.mk "serial-monitor:data" 7 false) []
  have h2 := event_queue_close_keeps_buffered_events Nat (Transport.init Nat)
    (EventQueue.mk "serial-monitor:data" (0 : Nat) [])
    (EventMsg.mk "serial-monitor:data" 7 false) []
  exact ⟨h1.2.1 rfl, h2.2.2.1 rfl⟩

/-- C3 counterexample: unsubscribing an event queue holding one
buffered event removes the registration, yet `get_nowait()` afterwards
still returns the buffered event instead of failing with empty-queue,
refuting the claim as stated. -/
theorem event_queue_close_discard_counterexample :
    (EventQueue.close (EventQueue.deliver (EventQueue.subscribe (Transport.init Nat) "serial-monitor:data" 0).1 (EventMsg.mk "serial-monitor:data" 7 false)) (EventQueue.subscribe (Transport.init Nat) "serial-monitor:data" 0).2).event_listeners = []
    ∧ EventQueue.get_nowait (EventQueue.deliver (EventQueue.subscribe (Transport.init Nat) "serial-monitor:data" 0).1 (EventMsg.mk "serial-monitor:data" 7 false))
        = Except.ok (EventMsg.mk "serial-monitor:data" 7 false,
            EventQueue.mk "serial-monitor:data" 0 [])
    ∧ EventQueue.get_nowait (EventQueue.deliver (EventQueue.subscribe (Transport.init Nat) "serial-monitor:data" 0).1 (EventMsg.mk "serial-monitor:data" 7 false))
        ≠ Except.error QueueEmpty.queueEmpty := by
  decide

/-- C4: `wait_until_simulation_time` always issues the pause first;
when `remaining = seconds * 1e9 - last_pause_nanos ≤ 0` it performs no
further action (no flush, no resume, no wait) and leaves the client
state unchanged — so a second call with the same already-reached target
again issues only the pause; when `remaining > 0` it flushes the pause
queue, issues exactly one resume carrying `int(remaining)` as the
auto-pause threshold, and then waits for exactly one new pause event,
after which `last_pause_nanos` is the new event's nanos. -/
theorem wait_until_simulation_time_paces (c : WokwiClient) (seconds : ℚ)
    (arriving arriving2 : EventMsg) :
    ((c.wait_until_simulation_time seconds arriving).1.head? = some PacerAct.cmdPause)
    ∧ (seconds * 1000000000 - (c.last_pause_nanos : ℚ) ≤ 0 →
        c.wait_until_simulation_time seconds arriving = ([PacerAct.cmdPause], c)
        ∧ (c.wait_until_simulation_time seconds arriving).2.wait_until_simulation_time
            seconds arriving2 = ([PacerAct.cmdPause], c))
    ∧ (0 < seconds * 1000000000 - (c.last_pause_nanos : ℚ) →
        c.wait_until_simulation_time seconds arriving
          = ([PacerAct.cmdPause, PacerAct.flushPauseQueue,
              PacerAct.cmdResume
                (some (pyInt (seconds * 1000000000 - (c.last_pause_nanos : ℚ)))),
              PacerAct.awaitPauseEvent arriving],
             { last_pause_nanos := pyInt arriving.nanos, pause_queue := some [] })) := by
  refine ⟨?_, ?_, ?_⟩
  · unfold WokwiClient.wait_until_simulation_time
    split <;> rfl
  · intro h
    have hno : ¬ (0 < seconds * 1000000000 - (c.last_pause_nanos : ℚ)) := not_lt.mpr h
    have h1 : c.wait_until_simulation_time seconds arriving = ([PacerAct.cmdPause], c) := by
      unfold WokwiClient.wait_until_simulation_time
      rw [if_neg hno]
    refine ⟨h1, ?_⟩
    rw [h1]
    unfold WokwiClient.wait_until_simulation_time
    rw [if_neg hno]
  · intro h
    unfold WokwiClient.wait_until_simulation_time
    rw [if_pos h]

/-- C4 witness: the §8 scenario — a client at virtual time 0 asked to
reach 0.5 s issues pause, flush, `resume(500000000)`, and waits for one
pause event whose `nanos = 500000000` becomes the new clock state; a
client already at 2 s asked to reach 1 s issues only the pause, twice
in a row. -/
theorem wait_until_simulation_time_paces_witness :
    (WokwiClient.mk 0 none).wait_until_simulation_time (1/2)
        (EventMsg.mk "sim:pause" 500000000 true)
      = ([PacerAct.cmdPause, PacerAct.flushPauseQueue,
          PacerAct.cmdResume (some 500000000),
          PacerAct.awaitPauseEvent (EventMsg.mk "sim:pause" 500000000 true)],
         WokwiClient.mk 500000000 (some []))
    ∧ (WokwiClient.mk 2000000000 (some [])).wait_until_simulation_time 1
        (EventMsg.mk "sim:pause" 0 true)
      = ([PacerAct.cmdPause], WokwiClient.mk 2000000000 (some []))
    ∧ ((WokwiClient.mk 2000000000 (some [])).wait_until_simulation_time 1
        (EventMsg.mk "sim:pause" 0 true)).2.wait_until_simulation_time 1
          (EventMsg.mk "sim:pause" 0 true)
      = ([PacerAct.cmdPause], WokwiClient.mk 2000000000 (some [])) := by
  have h1 := (wait_until_simulation_time_paces (WokwiClient.mk 0 none) (1/2)
    (EventMsg.mk "sim:pause" 500000000 true) (EventMsg.mk "sim:pause" 500000000 true)).2.2
    (by norm_num)
  have h2 := (wait_until_simulation_time_paces (WokwiClient.mk 2000000000 (some [])) 1
    (EventMsg.mk "sim:pause" 0 true) (EventMsg.mk "sim:pause" 0 true)).2.1
    (by norm_num)
  refine ⟨?_, h2.1, h2.2⟩
  rw [h1]
  have e1 : ((1 : ℚ)/2 * 1000000000 - ((0 : Int) : ℚ)) = 500000000 := by norm_num
  rw [e1]
  rfl

/-- C5: along every trace of operations from a fresh transport, the
allocated request ids are exactly the consecutive run 1, 2, 3, ...
(they start at 1, strictly increase, and are never reused); the
pending-request table never holds two entries with one id; a future
that is done is never changed by any further operation (each pending
request is resolved at most once — resolution is guarded by
`future.done()` everywhere); and when a `request()` caller resumes,
successfully or not, its table entry is removed. -/
theorem request_ids_and_pending_invariants (L : Type) [DecidableEq L]
    (ops : List (TOp L)) :
    consecFromB 1 (allocIds (Transport.init L) ops) = true
    ∧ (keysOf (runOps (Transport.init L) ops).response_futures).Nodup
    ∧ (∀ (op : TOp L) (k : Nat) (f : FutureState),
        getEntry k (runOps (Transport.init L) ops).response_futures = some f →
        f.isDone = true →
        getEntry k (execOp (runOps (Transport.init L) ops) op).response_futures = some f
        ∨ getEntry k (execOp (runOps (Transport.init L) ops) op).response_futures = none)
    ∧ (∀ (i : Nat) (out : Except TransportException RespData) (st' : Transport L),
        Transport.request_finish (runOps (Transport.init L) ops) i = some (out, st') →
        getEntry i st'.response_futures = none) := by
  have hinv := tinv_runOps ops (Transport.init L) (tinv_init L)
  refine ⟨allocIds_consec ops (Transport.init L), hinv.2.2, ?_, ?_⟩
  · intro op k f hk hd
    exact execOp_done_stable _ op hinv.2.2 hk hd
  · intro i out st' hfin
    rw [(request_finish_erases hfin).1]
    exact getEntry_eraseEntry_self_of_nodup hinv.2.2

/-- C5 witness: a trace with two requests allocates ids 1 then 2; the
fulfilled request 1 stays fulfilled under a further receive step, and
finishing it removes its entry. -/
theorem request_ids_and_pending_invariants_witness :
    consecFromB 1 (allocIds (Transport.init Nat)
      [TOp.opConnect (RecvInput.frame (Frame.hello 1 "wokwi" "1.0.0")),
       TOp.opRequestStart,
       TOp.opRecv true (RecvInput.frame (Frame.response (some 1) "sim:start" none false)),
       TOp.opRequestStart]) = true
    ∧ (getEntry 1 (execOp (runOps (Transport.init Nat)
        [TOp.opConnect (RecvInput.frame (Frame.hello 1 "wokwi" "1.0.0")),
         TOp.opRequestStart,
         TOp.opRecv true (RecvInput.frame (Frame.response (some 1) "sim:start" none false)),
         TOp.opRequestStart])
        (TOp.opRecv true (RecvInput.frame
          (Frame.response (some 1) "sim:resume" none false)))).response_futures
        = some (FutureState.result
            (RespData.mk (some 1) "sim:start" none false))
       ∨ getEntry 1 (execOp (runOps (Transport.init Nat)
        [TOp.opConnect (RecvInput.frame (Frame.hello 1 "wokwi" "1.0.0")),
         TOp.opRequestStart,
         TOp.opRecv true (RecvInput.frame (Frame.response (some 1) "sim:start" none false)),
         TOp.opRequestStart])
        (TOp.opRecv true (RecvInput.frame
          (Frame.response (some 1) "sim:resume" none false)))).response_futures
        = none) := by
  refine ⟨(request_ids_and_pending_invariants Nat _).1, ?_⟩
  exact (request_ids_and_pending_invariants Nat
    [TOp.opConnect (RecvInput.frame (Frame.hello 1 "wokwi" "1.0.0")),
     TOp.opRequestStart,
     TOp.opRecv true (RecvInput.frame (Frame.response (some 1) "sim:start" none false)),
     TOp.opRequestStart]).2.2.1
    (TOp.opRecv true (RecvInput.frame (Frame.response (some 1) "sim:resume" none false)))
    1 (FutureState.result (RespData.mk (some 1) "sim:start" none false))
    (by decide) (by decide)

/-- C6: listeners are dispatched in registration order —
`add_event_listener` appends at the end of the invocation list of its
event type, and registering two listeners on a fresh event type then
dispatching one event of that type invokes both exactly once,
first-registered first. -/
theorem event_dispatch_registration_order (L : Type) [DecidableEq L]
    (st : Transport L) (t : String) (l1 l2 : L) :
    (Transport.dispatch_event (Transport.add_event_listener st t l1) t
      = Transport.dispatch_event st t ++ [l1])
    ∧ (getEntry t st.event_listeners = none → l1 ≠ l2 →
        Transport.dispatch_event
            (Transport.add_event_listener (Transport.add_event_listener st t l1) t l2) t
          = [l1, l2]
        ∧ (Transport.dispatch_event
            (Transport.add_event_listener (Transport.add_event_listener st t l1) t l2)
              t).count l1 = 1
        ∧ (Transport.dispatch_event
            (Transport.add_event_listener (Transport.add_event_listener st t l1) t l2)
              t).count l2 = 1) := by
  have hadd : ∀ (s : Transport L) (l : L),
      Transport.dispatch_event (Transport.add_event_listener s t l) t
        = Transport.dispatch_event s t ++ [l] := by
    intro s l
    cases hg : getEntry t s.event_listeners with
    | none =>
        simp only [Transport.add_event_listener, Transport.dispatch_event, hg]
        rw [getEntry_append_of_none _ hg]
        simp [getEntry]
    | some ls =>
        simp only [Transport.add_event_listener, Transport.dispatch_event, hg]
        rw [getEntry_setEntry_self _ hg]
        simp
  refine ⟨hadd st l1, ?_⟩
  intro hg hne
  have h2 : Transport.dispatch_event
      (Transport.add_event_listener (Transport.add_event_listener st t l1) t l2) t
      = [l1, l2] := by
    rw [hadd _ l2, hadd st l1]
    unfold Transport.dispatch_event
    rw [hg]
    rfl
  refine ⟨h2, ?_, ?_⟩ <;> rw [h2] <;> simp [List.count_cons, hne, Ne.symm hne]

/-- C6 witness: two listeners (0 and 1) registered on a fresh type are
both invoked exactly once for one event, in registration order. -/
theorem event_dispatch_registration_order_witness :
    Transport.dispatch_event
        (Transport.add_event_listener
          (Transport.add_event_listener (Transport.init Nat) "sim:pause" 0)
          "sim:pause" 1) "sim:pause"
      = [0, 1]
    ∧ (Transport.dispatch_event
        (Transport.add_event_listener
          (Transport.add_event_listener (Transport.init Nat) "sim:pause" 0)
          "sim:pause" 1) "sim:pause").count 0 = 1
    ∧ (Transport.dispatch_event
        (Transport.add_event_listener
          (Transport.add_event_listener (Transport.init Nat) "sim:pause" 0)
          "sim:pause" 1) "sim:pause").count 1 = 1 := by
  exact (event_dispatch_registration_order Nat (Transport.init Nat) "sim:pause" 0 1).2
    (by decide) (by decide)

/-- C7: while the receive loop is running, an inbound response frame
(error flag clear) whose id matches no pending request — including a
missing or non-allocated id — or matches an already fulfilled future,
is silently discarded: the loop keeps running with no listener
invocation, and the whole transport state, in particular the
pending-request table, is left exactly unchanged. -/
theorem unmatched_response_ignored (L : Type) [DecidableEq L] (te : Bool)
    (st : Transport L) (oid : Option Nat) (cmd : String) (res : Option ResultDict)
    (hc : st.closed = false) (hw : st.ws.isNone = false)
    (hun : oid.bind (fun i => getEntry i st.response_futures) = none
      ∨ ∃ f, oid.bind (fun i => getEntry i st.response_futures) = some f
          ∧ f.isDone = true) :
    Transport.background_recv_step te st
        (RecvInput.frame (Frame.response oid cmd res false))
      = (RecvOutcome.looped [], st) := by
  have hguard : (st.closed || st.ws.isNone) = false := by simp [hc, hw]
  unfold Transport.background_recv_step
  simp only [hguard, Bool.false_eq_true, if_false]
  have hcl : Transport.recv_classify (Frame.response oid cmd res false)
      = Except.ok (Frame.response oid cmd res false) := rfl
  rw [hcl]
  cases oid with
  | none => rfl
  | some i =>
      dsimp only
      simp only [Option.some_bind] at hun
      rcases hun with hnone | ⟨f, hf, hd⟩
      · rw [hnone]
      · rw [hf]
        cases f with
        | pending => simp [FutureState.isDone] at hd
        | result r => rfl
        | exn e => rfl

/-- C7 witness: a connected transport with one pending request (id 1)
ignores a response for the never-issued id 999 and a duplicate response
for the already fulfilled id 1, each time leaving the state unchanged. -/
theorem unmatched_response_ignored_witness :
    Transport.background_recv_step true
        (runOps (Transport.init Nat)
          [TOp.opConnect (RecvInput.frame (Frame.hello 1 "wokwi" "1.0.0")),
           TOp.opRequestStart])
        (RecvInput.frame (Frame.response (some 999) "sim:start" none false))
      = (RecvOutcome.looped [],
         runOps (Transport.init Nat)
          [TOp.opConnect (RecvInput.frame (Frame.hello 1 "wokwi" "1.0.0")),
           TOp.opRequestStart])
    ∧ Transport.background_recv_step true
        (runOps (Transport.init Nat)
          [TOp.opConnect (RecvInput.frame (Frame.hello 1 "wokwi" "1.0.0")),
           TOp.opRequestStart,
           TOp.opRecv true (RecvInput.frame (Frame.response (some 1) "sim:start" none false))])
        (RecvInput.frame (Frame.response (some 1) "sim:start" none false))
      = (RecvOutcome.looped [],
         runOps (Transport.init Nat)
          [TOp.opConnect (RecvInput.frame (Frame.hello 1 "wokwi" "1.0.0")),
           TOp.opRequestStart,
           TOp.opRecv true (RecvInput.frame (Frame.response (some 1) "sim:start" none false))]) := by
  constructor
  · exact unmatched_response_ignored Nat true _ (some 999) "sim:start" none
      (by decide) (by decide) (Or.inl (by decide))
  · exact unmatched_response_ignored Nat true _ (some 1) "sim:start" none
      (by decide) (by decide)
      (Or.inr ⟨FutureState.result (RespData.mk (some 1) "sim:start" none false),
        by decide, by decide⟩)

/-- C8 (amended): `request()`'s only guard is `self._ws is None`, so it
fails fast (with `WokwiError("Not connected")`, leaving the state
untouched) exactly on a transport that never connected.  Whenever a
connection object exists — including the Closing/Closed states after
`close()`, which never clears `_ws` — `request()` passes the guard,
allocates a fresh id, registers a pending future, and reaches the send;
the failure on a closed socket comes from the send itself, which is
outside the `try/finally`, so the registered entry is left behind. -/
theorem request_guard_only_checks_ws (L : Type) [DecidableEq L] (st : Transport L) :
    (st.ws = none →
      Transport.request_start st
        = (Except.error (TransportException.wokwiError "Not connected"), st))
    ∧ (∀ w, st.ws = some w →
        (Transport.request_start st).2.response_futures
          = st.response_futures ++ [(st.next_id, FutureState.pending)]
        ∧ (Transport.request_start st).2.next_id = st.next_id + 1
        ∧ (Transport.request_start st).1
            = (if w.connOpen then Except.ok st.next_id
               else Except.error TransportException.connectionClosed)) := by
  constructor
  · intro h
    exact request_start_none h
  · intro w h
    obtain ⟨a, b, c⟩ := request_start_some h
    exact ⟨b, a, c⟩

/-- C8 witness: with no connection object the guard fires and nothing
is registered; on a live connection the request is registered and the
send succeeds. -/
theorem request_guard_only_checks_ws_witness :
    Transport.request_start (Transport.init Nat)
      = (Except.error (TransportException.wokwiError "Not connected"),
         Transport.init Nat)
    ∧ (Transport.request_start (runOps (Transport.init Nat)
        [TOp.opConnect (RecvInput.frame (Frame.hello 1 "wokwi" "1.0.0"))])).1
      = Except.ok 1 := by
  constructor
  · exact (request_guard_only_checks_ws Nat (Transport.init Nat)).1 rfl
  · have h := ((request_guard_only_checks_ws Nat (runOps (Transport.init Nat)
      [TOp.opConnect (RecvInput.frame (Frame.hello 1 "wokwi" "1.0.0"))])).2
      { connOpen := true } (by decide)).2.2
    rw [h]
    decide

/-- C8 counterexample: after a successful connect and a close — the
`Closed` state, not `Connected` — `request()` does not fail fast: the
guard passes (`_ws` is still set), a fresh id is allocated, a pending
entry is registered (the state is mutated), and the send on the closed
socket is attempted, failing with the socket's `ConnectionClosed`
rather than the guard's `WokwiError("Not connected")`.  This refutes
the claim that `request()` fails fast in every non-Connected state. -/
theorem request_after_close_not_fail_fast :
    (Transport.close (runOps (Transport.init Nat)
        [TOp.opConnect (RecvInput.frame (Frame.hello 1 "wokwi" "1.0.0"))])).2.closed
      = true
    ∧ (Transport.request_start (Transport.close (runOps (Transport.init Nat)
        [TOp.opConnect (RecvInput.frame (Frame.hello 1 "wokwi" "1.0.0"))])).2).1
      ≠ Except.error (TransportException.wokwiError "Not connected")
    ∧ (Transport.request_start (Transport.close (runOps (Transport.init Nat)
        [TOp.opConnect (RecvInput.frame (Frame.hello 1 "wokwi" "1.0.0"))])).2).2.response_futures
      = [(1, FutureState.pending)]
    ∧ (Transport.request_start (Transport.close (runOps (Transport.init Nat)
        [TOp.opConnect (RecvInput.frame (Frame.hello 1 "wokwi" "1.0.0"))])).2).1
      = Except.error TransportException.connectionClosed := by
  decide

/-- C9: the request-id counter is never reset: no operation decreases
`_next_id`, and `close()` and `connect()` leave it exactly unchanged
(`connect` touches only `_ws`, `_closed` and the receive task), so the
ids allocated across an arbitrary trace that closes and reconnects the
same transport instance are still the consecutive, never-repeating run
1, 2, 3, ... -/
theorem request_id_counter_never_reset (L : Type) [DecidableEq L] :
    (∀ (st : Transport L) (op : TOp L), st.next_id ≤ (execOp st op).next_id)
    ∧ (∀ st : Transport L, (Transport.close st).2.next_id = st.next_id)
    ∧ (∀ (st : Transport L) (f : RecvInput),
        (Transport.connect st f).2.next_id = st.next_id)
    ∧ (∀ (ops1 ops2 : List (TOp L)) (f : RecvInput),
        consecFromB 1 (allocIds (Transport.init L)
          (ops1 ++ (TOp.opClose :: TOp.opConnect f :: ops2))) = true) := by
  refine ⟨execOp_next_id_mono, ?_, ?_, ?_⟩
  · intro st
    exact (close_shape st).1
  · intro st f
    exact (connect_shape st f).1
  · intro ops1 ops2 f
    exact allocIds_consec _ (Transport.init L)

/-- C10: `remove_event_listener` never raises; formally it is a total
state transformation with these properties: an unregistered event type
is a strict no-op; for a registered type the surviving listener list is
the original one with every registration equal to the callback
filtered out, the type's entry being deleted exactly when that list
becomes empty; removing a callback that is not registered (from a
non-empty list) leaves the state unchanged; other event types and the
pending-request table are untouched.  The `Nodup` hypothesis is the
representation invariant of the Python dict (a key occurs once). -/
theorem remove_event_listener_spec (L : Type) [DecidableEq L] (st : Transport L)
    (t : String) (l : L)
    (hnd : (keysOf st.event_listeners).Nodup) :
    (getEntry t st.event_listeners = none →
      Transport.remove_event_listener st t l = st)
    ∧ (∀ ls, getEntry t st.event_listeners = some ls →
        getEntry t (Transport.remove_event_listener st t l).event_listeners
          = (if ls.filter (fun x => x ≠ l) = [] then none
             else some (ls.filter (fun x => x ≠ l))))
    ∧ (∀ ls, getEntry t st.event_listeners = some ls → ls ≠ [] → l ∉ ls →
        Transport.remove_event_listener st t l = st)
    ∧ (∀ t2, t2 ≠ t →
        getEntry t2 (Transport.remove_event_listener st t l).event_listeners
          = getEntry t2 st.event_listeners)
    ∧ (Transport.remove_event_listener st t l).response_futures
        = st.response_futures := by
  refine ⟨?_, ?_, ?_, ?_, (remove_listener_shape st t l).2⟩
  · intro h
    unfold Transport.remove_event_listener
    rw [h]
  · intro ls h
    unfold Transport.remove_event_listener
    rw [h]
    by_cases hf : ls.filter (fun x => x ≠ l) = []
    · simp only [hf, if_pos rfl, if_true]
      exact getEntry_eraseEntry_self_of_nodup hnd
    · simp only [hf, if_false]
      exact getEntry_setEntry_self _ h
  · intro ls h hlsne hl
    have hfid : ls.filter (fun x => x ≠ l) = ls := by
      rw [List.filter_eq_self]
      intro a ha
      simp only [ne_eq, decide_not, Bool.not_eq_eq_eq_not, Bool.not_true,
        decide_eq_false_iff_not]
      intro heq
      exact hl (heq ▸ ha)
    unfold Transport.remove_event_listener
    rw [h]
    dsimp only
    rw [hfid]
    rw [if_neg hlsne]
    rw [setEntry_eq_self h]
  · intro t2 ht2
    unfold Transport.remove_event_listener
    cases hg : getEntry t st.event_listeners with
    | none => rfl
    | some ls =>
        by_cases hf : ls.filter (fun x => x ≠ l) = []
        · simp only [hf, if_pos rfl, if_true]
          exact getEntry_eraseEntry_ne ht2 _
        · simp only [hf, if_false]
          exact getEntry_setEntry_ne _ ht2 _

/-- C10 witness: on the table `{"pin:change": [0, 1]}`, removing
listener 0 leaves `{"pin:change": [1]}`; removing a listener from the
unregistered type `"sim:pause"` is a no-op; removing the last listener
of a type deletes the entry. -/
theorem remove_event_listener_spec_witness :
    getEntry "pin:change"
        (Transport.remove_event_listener
          { Transport.init Nat with event_listeners := [("pin:change", [0, 1])] }
          "pin:change" 0).event_listeners
      = some [1]
    ∧ Transport.remove_event_listener
        { Transport.init Nat with event_listeners := [("pin:change", [0, 1])] }
        "sim:pause" 5
      = { Transport.init Nat with event_listeners := [("pin:change", [0, 1])] }
    ∧ getEntry "pin:change"
        (Transport.remove_event_listener
          { Transport.init Nat with event_listeners := [("pin:change", [1])] }
          "pin:change" 1).event_listeners
      = none := by
  refine ⟨?_, ?_, ?_⟩
  · have h := (remove_event_listener_spec Nat
      { Transport.init Nat with event_listeners := [("pin:change", [0, 1])] }
      "pin:change" 0 (by decide)).2.1 [0, 1] (by decide)
    rw [h]
    decide
  · exact (remove_event_listener_spec Nat
      { Transport.init Nat with event_listeners := [("pin:change", [0, 1])] }
      "sim:pause" 5 (by decide)).1 (by decide)
  · have h := (remove_event_listener_spec Nat
      { Transport.init Nat with event_listeners := [("pin:change", [1])] }
      "pin:change" 1 (by decide)).2.1 [1] (by decide)
    rw [h]
    decide

/-- C7 counterexample: an inbound response frame for the never-issued
id 999 whose error flag is set is NOT silently discarded: `_recv`
raises on it before the id lookup is reached, the receive loop dies,
the transport is closed and the unrelated pending request 1 is failed —
refuting the claim for error-flagged response frames (the same defect
as C1). -/
theorem error_flagged_unmatched_response_not_ignored :
    (Transport.background_recv_step true
        (runOps (Transport.init Nat)
          [TOp.opConnect (RecvInput.frame (Frame.hello 1 "wokwi" "1.0.0")),
           TOp.opRequestStart])
        (RecvInput.frame (Frame.response (some 999) "sim:start"
          (some { code := some (-1), message := some "nope" }) true))).1
      = RecvOutcome.died (TransportException.wokwiError "Server error -1: nope")
    ∧ (Transport.background_recv_step true
        (runOps (Transport.init Nat)
          [TOp.opConnect (RecvInput.frame (Frame.hello 1 "wokwi" "1.0.0")),
           TOp.opRequestStart])
        (RecvInput.frame (Frame.response (some 999) "sim:start"
          (some { code := some (-1), message := some "nope" }) true))).2.closed
      = true
    ∧ getEntry 1 (Transport.background_recv_step true
        (runOps (Transport.init Nat)
          [TOp.opConnect (RecvInput.frame (Frame.hello 1 "wokwi" "1.0.0")),
           TOp.opRequestStart])
        (RecvInput.frame (Frame.response (some 999) "sim:start"
          (some { code := some (-1), message := some "nope" }) true))).2.response_futures
      = some (FutureState.exn
          (TransportException.wokwiError "Server error -1: nope")) := by
  decide
